import Mathlib

/-!
Shallow embedding of `src/midi.rs` (MIDI message building and parsing).

Bytes are modelled as `Nat` (the Rust code never overflows a `u8`: the only
arithmetic is bitwise `|` and `&` on values below 256, and `+ 1` on a nibble).
A Rust `Reader` is modelled as a finite list of read outcomes (each either a
byte or an I/O error) followed by a fixed end-of-stream error, with
`read_byte` consuming one outcome per call.  Rust panics (out-of-bounds
indexing, `Option::unwrap` on `None`) are modelled as `none` in
`Option`-valued accessors.  Fallible decoding returns `Except`.
-/

namespace Rimd

/-- Model of `std::io::IoError`: an opaque I/O error value, carried around so
theorems can state that the decoder preserves the underlying cause. -/
structure IoError where
  kind : Nat
  deriving DecidableEq, Repr

/-- `enum MidiError` from `src/midi.rs` lines 7-11. -/
inductive MidiError where
  | InvalidStatus : Nat → MidiError
  | OtherErr : String → MidiError
  | IoError : IoError → MidiError
  deriving DecidableEq, Repr

/-- `enum Status` from `src/midi.rs` lines 49-72. -/
inductive Status where
  | NoteOff
  | NoteOn
  | PolyphonicAftertouch
  | ControlChange
  | ProgramChange
  | ChannelAftertouch
  | PitchBend
  | SysExStart
  | MIDITimeCodeQtrFrame
  | SongPositionPointer
  | SongSelect
  | TuneRequest
  | SysExEnd
  | TimingClock
  | Start
  | Continue
  | Stop
  | ActiveSensing
  | SystemReset
  deriving DecidableEq, Repr

/-- The numeric discriminant of each `Status` variant (the `= 0x80` etc.
assigned in the Rust enum declaration). -/
def Status.toU8 : Status → Nat
  | Status.NoteOff => 0x80
  | Status.NoteOn => 0x90
  | Status.PolyphonicAftertouch => 0xA0
  | Status.ControlChange => 0xB0
  | Status.ProgramChange => 0xC0
  | Status.ChannelAftertouch => 0xD0
  | Status.PitchBend => 0xE0
  | Status.SysExStart => 0xF0
  | Status.MIDITimeCodeQtrFrame => 0xF1
  | Status.SongPositionPointer => 0xF2
  | Status.SongSelect => 0xF3
  | Status.TuneRequest => 0xF6
  | Status.SysExEnd => 0xF7
  | Status.TimingClock => 0xF8
  | Status.Start => 0xFA
  | Status.Continue => 0xFB
  | Status.Stop => 0xFC
  | Status.ActiveSensing => 0xFE
  | Status.SystemReset => 0xFF

/-- `FromPrimitive::from_u8` for `Status` (the `#[derive(FromPrimitive)]`):
`some v` exactly when the byte equals the discriminant of variant `v`. -/
def Status.fromU8 (n : Nat) : Option Status :=
  if n = 0x80 then some Status.NoteOff
  else if n = 0x90 then some Status.NoteOn
  else if n = 0xA0 then some Status.PolyphonicAftertouch
  else if n = 0xB0 then some Status.ControlChange
  else if n = 0xC0 then some Status.ProgramChange
  else if n = 0xD0 then some Status.ChannelAftertouch
  else if n = 0xE0 then some Status.PitchBend
  else if n = 0xF0 then some Status.SysExStart
  else if n = 0xF1 then some Status.MIDITimeCodeQtrFrame
  else if n = 0xF2 then some Status.SongPositionPointer
  else if n = 0xF3 then some Status.SongSelect
  else if n = 0xF6 then some Status.TuneRequest
  else if n = 0xF7 then some Status.SysExEnd
  else if n = 0xF8 then some Status.TimingClock
  else if n = 0xFA then some Status.Start
  else if n = 0xFB then some Status.Continue
  else if n = 0xFC then some Status.Stop
  else if n = 0xFE then some Status.ActiveSensing
  else if n = 0xFF then some Status.SystemReset
  else none

/-- `struct MidiMessage { data: Vec<u8> }` (line 78-80). -/
structure MidiMessage where
  data : List Nat
  deriving DecidableEq, Repr

/-- `static STATUS_MASK: u8 = 0xF0` (line 82). -/
def STATUS_MASK : Nat := 0xF0

/-- `static CHANNEL_MASK: u8 = 0x0F` (line 83). -/
def CHANNEL_MASK : Nat := 0x0F

deriving instance DecidableEq for Except

/-- A Rust `Reader` as the decoder uses it: `items` is the sequence of
outcomes the next `read_byte` calls will produce in order, and `eof` is the
I/O error produced once the items are exhausted (end of file). -/
structure Reader where
  items : List (Except IoError Nat)
  eof : IoError
  deriving DecidableEq, Repr

/-- `reader.read_byte()`: returns the next outcome and the advanced reader. -/
def read_byte (r : Reader) : Except IoError Nat × Reader :=
  match r.items with
  | [] => (Except.error r.eof, r)
  | x :: rest => (x, ⟨rest, r.eof⟩)

/-- A byte source that delivers the given bytes successfully, then fails
with `e` (used to feed a message buffer back to the decoder). -/
def okSource (bytes : List Nat) (e : IoError) : Reader :=
  ⟨bytes.map Except.ok, e⟩

/-- `MidiMessage::status` (lines 87-89):
`FromPrimitive::from_u8(self.data[0] & STATUS_MASK).unwrap()`.
`none` models a panic (empty buffer, or `unwrap` of a failed conversion). -/
def MidiMessage.status (m : MidiMessage) : Option Status :=
  match m.data.get? 0 with
  | none => none
  | some b => Status.fromU8 (b &&& STATUS_MASK)

/-- `MidiMessage::channel` (lines 92-94): `(self.data[0] & CHANNEL_MASK) + 1`.
`none` models the out-of-bounds panic on an empty buffer. -/
def MidiMessage.channel (m : MidiMessage) : Option Nat :=
  match m.data.get? 0 with
  | none => none
  | some b => some ((b &&& CHANNEL_MASK) + 1)

/-- `MidiMessage::data(index)` (lines 98-100): `self.data[index]`.
`none` models the out-of-bounds panic. -/
def MidiMessage.getData (m : MidiMessage) (index : Nat) : Option Nat :=
  m.data.get? index

/-- `MidiMessage::make_status` (lines 103-105): `status as u8 | channel`. -/
def MidiMessage.make_status (status : Status) (channel : Nat) : Nat :=
  status.toU8 ||| channel

/-- `MidiMessage::from_bytes` (lines 108-113): wraps the bytes unvalidated. -/
def MidiMessage.from_bytes (bytes : List Nat) : MidiMessage :=
  ⟨bytes⟩

/-- `MidiMessage::data_bytes` (lines 119-149): number of data bytes for a
message with the given status byte; `-1` variable sized, `-2` sysex,
`-3` invalid status.  Note the code masks with `STATUS_MASK` before the
enum conversion, so only `0x80, 0x90, ..., 0xF0` can match. -/
def MidiMessage.data_bytes (status : Nat) : Int :=
  match Status.fromU8 (status &&& STATUS_MASK) with
  | some stat =>
    match stat with
    | Status.NoteOff | Status.NoteOn | Status.PolyphonicAftertouch
    | Status.ControlChange | Status.PitchBend | Status.SongPositionPointer => 2
    | Status.SysExStart => -2
    | Status.ProgramChange | Status.ChannelAftertouch
    | Status.MIDITimeCodeQtrFrame | Status.SongSelect => 1
    | Status.TuneRequest | Status.SysExEnd | Status.TimingClock | Status.Start
    | Status.Continue | Status.Stop | Status.ActiveSensing | Status.SystemReset => 0
  | none => -3

/-- `MidiMessage::next_message_given_status` (lines 153-166).  The returned
reader is the state of the `&mut Reader` argument after the call; the two
`OtherErr` message strings appear in the source with an apostrophe
(`Don` + apostrophe + `t`), dropped here. -/
def MidiMessage.next_message_given_status (stat : Nat) (reader : Reader) :
    Except MidiError MidiMessage × Reader :=
  let n := MidiMessage.data_bytes stat
  if n = 0 then (Except.ok ⟨[stat]⟩, reader)
  else if n = 1 then
    match read_byte reader with
    | (Except.error e, r) => (Except.error (MidiError.IoError e), r)
    | (Except.ok b, r) => (Except.ok ⟨[stat, b]⟩, r)
  else if n = 2 then
    match read_byte reader with
    | (Except.error e, r) => (Except.error (MidiError.IoError e), r)
    | (Except.ok b1, r) =>
      match read_byte r with
      | (Except.error e, r2) => (Except.error (MidiError.IoError e), r2)
      | (Except.ok b2, r2) => (Except.ok ⟨[stat, b1, b2]⟩, r2)
  else if n = -1 then (Except.error (MidiError.OtherErr "Dont handle variable sized yet"), reader)
  else if n = -2 then (Except.error (MidiError.OtherErr "Dont handle sysex yet"), reader)
  else (Except.error (MidiError.InvalidStatus stat), reader)

/-- `MidiMessage::next_message` (lines 169-172): read the status byte, then
delegate (a `read_byte` failure is converted by `try!` via `FromError`). -/
def MidiMessage.next_message (reader : Reader) : Except MidiError MidiMessage × Reader :=
  match read_byte reader with
  | (Except.error e, r) => (Except.error (MidiError.IoError e), r)
  | (Except.ok stat, r) => MidiMessage.next_message_given_status stat r

/-- `MidiMessage::note_on` (lines 178-182). -/
def MidiMessage.note_on (note velocity channel : Nat) : MidiMessage :=
  ⟨[MidiMessage.make_status Status.NoteOn channel, note, velocity]⟩

/-- `MidiMessage::note_off` (lines 185-189). -/
def MidiMessage.note_off (note velocity channel : Nat) : MidiMessage :=
  ⟨[MidiMessage.make_status Status.NoteOff channel, note, velocity]⟩

/-- `MidiMessage::polyphonic_aftertouch` (lines 193-197). -/
def MidiMessage.polyphonic_aftertouch (note pressure channel : Nat) : MidiMessage :=
  ⟨[MidiMessage.make_status Status.PolyphonicAftertouch channel, note, pressure]⟩

/-- `MidiMessage::control_change` (lines 202-206). -/
def MidiMessage.control_change (controler data channel : Nat) : MidiMessage :=
  ⟨[MidiMessage.make_status Status.ControlChange channel, controler, data]⟩

/-- `MidiMessage::program_change` (lines 210-214). -/
def MidiMessage.program_change (program channel : Nat) : MidiMessage :=
  ⟨[MidiMessage.make_status Status.ProgramChange channel, program]⟩

/-- `MidiMessage::channel_aftertouch` (lines 220-224). -/
def MidiMessage.channel_aftertouch (pressure channel : Nat) : MidiMessage :=
  ⟨[MidiMessage.make_status Status.ChannelAftertouch channel, pressure]⟩

/-- `MidiMessage::pitch_bend` (lines 231-235). -/
def MidiMessage.pitch_bend (lsb msb channel : Nat) : MidiMessage :=
  ⟨[MidiMessage.make_status Status.PitchBend channel, lsb, msb]⟩

/-! ## Helper lemmas -/

/-- For each builder status tag and channel nibble below 16: the data-byte
count of the packed status byte, its enum classification after masking, and
its extracted channel nibble. -/
lemma builder_byte_facts : ∀ ch < 16,
    (MidiMessage.data_bytes (0x80 ||| ch) = 2
      ∧ Status.fromU8 ((0x80 ||| ch) &&& STATUS_MASK) = some Status.NoteOff
      ∧ (0x80 ||| ch) &&& CHANNEL_MASK = ch)
    ∧ (MidiMessage.data_bytes (0x90 ||| ch) = 2
      ∧ Status.fromU8 ((0x90 ||| ch) &&& STATUS_MASK) = some Status.NoteOn
      ∧ (0x90 ||| ch) &&& CHANNEL_MASK = ch)
    ∧ (MidiMessage.data_bytes (0xA0 ||| ch) = 2
      ∧ Status.fromU8 ((0xA0 ||| ch) &&& STATUS_MASK) = some Status.PolyphonicAftertouch
      ∧ (0xA0 ||| ch) &&& CHANNEL_MASK = ch)
    ∧ (MidiMessage.data_bytes (0xB0 ||| ch) = 2
      ∧ Status.fromU8 ((0xB0 ||| ch) &&& STATUS_MASK) = some Status.ControlChange
      ∧ (0xB0 ||| ch) &&& CHANNEL_MASK = ch)
    ∧ (MidiMessage.data_bytes (0xC0 ||| ch) = 1
      ∧ Status.fromU8 ((0xC0 ||| ch) &&& STATUS_MASK) = some Status.ProgramChange
      ∧ (0xC0 ||| ch) &&& CHANNEL_MASK = ch)
    ∧ (MidiMessage.data_bytes (0xD0 ||| ch) = 1
      ∧ Status.fromU8 ((0xD0 ||| ch) &&& STATUS_MASK) = some Status.ChannelAftertouch
      ∧ (0xD0 ||| ch) &&& CHANNEL_MASK = ch)
    ∧ (MidiMessage.data_bytes (0xE0 ||| ch) = 2
      ∧ Status.fromU8 ((0xE0 ||| ch) &&& STATUS_MASK) = some Status.PitchBend
      ∧ (0xE0 ||| ch) &&& CHANNEL_MASK = ch) := by
  decide

/-- Decoding a status byte that requires two data bytes from a source holding
exactly those two bytes succeeds and drains the source. -/
lemma decode_two (s d1 d2 : Nat) (e : IoError) (h : MidiMessage.data_bytes s = 2) :
    MidiMessage.next_message_given_status s (okSource [d1, d2] e)
      = (Except.ok ⟨[s, d1, d2]⟩, ⟨[], e⟩) := by
  simp [MidiMessage.next_message_given_status, h, okSource, read_byte]

/-- Decoding a status byte that requires one data byte from a source holding
exactly that byte succeeds and drains the source. -/
lemma decode_one (s d1 : Nat) (e : IoError) (h : MidiMessage.data_bytes s = 1) :
    MidiMessage.next_message_given_status s (okSource [d1] e)
      = (Except.ok ⟨[s, d1]⟩, ⟨[], e⟩) := by
  simp [MidiMessage.next_message_given_status, h, okSource, read_byte]

/-- Round-trip block for a three-byte message. -/
lemma roundtrip_two (st : Status) (s d1 d2 ch : Nat) (e : IoError)
    (hdb : MidiMessage.data_bytes s = 2)
    (hst : Status.fromU8 (s &&& STATUS_MASK) = some st)
    (hch : s &&& CHANNEL_MASK = ch) :
    MidiMessage.next_message_given_status s (okSource [d1, d2] e)
        = (Except.ok ⟨[s, d1, d2]⟩, ⟨[], e⟩)
    ∧ (⟨[s, d1, d2]⟩ : MidiMessage).status = some st
    ∧ (⟨[s, d1, d2]⟩ : MidiMessage).channel = some (ch + 1)
    ∧ (⟨[s, d1, d2]⟩ : MidiMessage).getData 1 = some d1
    ∧ (⟨[s, d1, d2]⟩ : MidiMessage).getData 2 = some d2 := by
  refine ⟨decode_two s d1 d2 e hdb, ?_, ?_, rfl, rfl⟩
  · simp [MidiMessage.status, hst]
  · simp [MidiMessage.channel, hch]

/-- Round-trip block for a two-byte message. -/
lemma roundtrip_one (st : Status) (s d1 ch : Nat) (e : IoError)
    (hdb : MidiMessage.data_bytes s = 1)
    (hst : Status.fromU8 (s &&& STATUS_MASK) = some st)
    (hch : s &&& CHANNEL_MASK = ch) :
    MidiMessage.next_message_given_status s (okSource [d1] e)
        = (Except.ok ⟨[s, d1]⟩, ⟨[], e⟩)
    ∧ (⟨[s, d1]⟩ : MidiMessage).status = some st
    ∧ (⟨[s, d1]⟩ : MidiMessage).channel = some (ch + 1)
    ∧ (⟨[s, d1]⟩ : MidiMessage).getData 1 = some d1 := by
  refine ⟨decode_one s d1 e hdb, ?_, ?_, rfl⟩
  · simp [MidiMessage.status, hst]
  · simp [MidiMessage.channel, hch]

/-! ## Claim theorems -/

/-- Claim C1, behavior at the failing inputs: because `data_bytes` masks the
byte with `0xF0` before the enum conversion, every system status byte
`0xF1`–`0xFF` classifies as `SysExStart` and gets the sysex sentinel `-2`.
The claimed table (1 for `MIDITimeCodeQtrFrame` `0xF1` and `SongSelect`
`0xF3`, 2 for `SongPositionPointer` `0xF2`, 0 for `TuneRequest` `0xF6`,
`TimingClock` `0xF8` and `SystemReset` `0xFF`) matches the match arms
written in the source, but those arms are unreachable. -/
theorem data_bytes_masks_system_bytes_to_sysex :
    MidiMessage.data_bytes 0xF1 = -2
    ∧ MidiMessage.data_bytes 0xF2 = -2
    ∧ MidiMessage.data_bytes 0xF3 = -2
    ∧ MidiMessage.data_bytes 0xF6 = -2
    ∧ MidiMessage.data_bytes 0xF8 = -2
    ∧ MidiMessage.data_bytes 0xFF = -2 := by
  decide

/-- Claim C3, behavior at the failing input: decoding the reserved status
byte `0xF4` does not fail with `InvalidStatus(0xF4)` — the `0xF0` mask makes
it classify as `SysExStart`, so it fails with the sysex `OtherErr` (still
reading no bytes).  Of the claimed bytes only `0x00` (an unclassifiable
nibble) actually produces `InvalidStatus`, reading no bytes. -/
theorem reserved_status_bytes_behavior :
    MidiMessage.next_message_given_status 0xF4 (okSource [1, 2] ⟨0⟩)
        = (Except.error (MidiError.OtherErr "Dont handle sysex yet"), okSource [1, 2] ⟨0⟩)
    ∧ MidiMessage.next_message_given_status 0xF5 (okSource [1, 2] ⟨0⟩)
        = (Except.error (MidiError.OtherErr "Dont handle sysex yet"), okSource [1, 2] ⟨0⟩)
    ∧ MidiMessage.next_message_given_status 0xF9 (okSource [1, 2] ⟨0⟩)
        = (Except.error (MidiError.OtherErr "Dont handle sysex yet"), okSource [1, 2] ⟨0⟩)
    ∧ MidiMessage.next_message_given_status 0xFD (okSource [1, 2] ⟨0⟩)
        = (Except.error (MidiError.OtherErr "Dont handle sysex yet"), okSource [1, 2] ⟨0⟩)
    ∧ MidiMessage.next_message_given_status 0x00 (okSource [1, 2] ⟨0⟩)
        = (Except.error (MidiError.InvalidStatus 0x00), okSource [1, 2] ⟨0⟩) := by
  refine ⟨rfl, rfl, rfl, rfl, rfl⟩

/-- Claim C4: decoding with status byte `0xF0` (SysExStart) fails with the
unsupported-feature (`OtherErr` sysex) error and leaves the byte source
untouched — no read towards a SysExEnd terminator is attempted. -/
theorem sysex_start_rejected (r : Reader) :
    MidiMessage.next_message_given_status 0xF0 r
      = (Except.error (MidiError.OtherErr "Dont handle sysex yet"), r) := by
  rfl

/-- Claim C2: for every builder, every channel 0–15 and all 7-bit data,
feeding the built message back to the decoder (status byte first, remaining
bytes as the byte source) succeeds, reproduces the byte buffer exactly, and
the message reports the builder's status kind, channel + 1, and the input
data values. -/
theorem builders_roundtrip (ch d1 d2 : Nat) (e : IoError)
    (hch : ch < 16) (hd1 : d1 < 128) (hd2 : d2 < 128) :
    (MidiMessage.next_message_given_status ((MidiMessage.note_on d1 d2 ch).data.headD 0)
        (okSource (MidiMessage.note_on d1 d2 ch).data.tail e)
        = (Except.ok (MidiMessage.note_on d1 d2 ch), ⟨[], e⟩)
      ∧ (MidiMessage.note_on d1 d2 ch).status = some Status.NoteOn
      ∧ (MidiMessage.note_on d1 d2 ch).channel = some (ch + 1)
      ∧ (MidiMessage.note_on d1 d2 ch).getData 1 = some d1
      ∧ (MidiMessage.note_on d1 d2 ch).getData 2 = some d2)
    ∧ (MidiMessage.next_message_given_status ((MidiMessage.note_off d1 d2 ch).data.headD 0)
        (okSource (MidiMessage.note_off d1 d2 ch).data.tail e)
        = (Except.ok (MidiMessage.note_off d1 d2 ch), ⟨[], e⟩)
      ∧ (MidiMessage.note_off d1 d2 ch).status = some Status.NoteOff
      ∧ (MidiMessage.note_off d1 d2 ch).channel = some (ch + 1)
      ∧ (MidiMessage.note_off d1 d2 ch).getData 1 = some d1
      ∧ (MidiMessage.note_off d1 d2 ch).getData 2 = some d2)
    ∧ (MidiMessage.next_message_given_status
          ((MidiMessage.polyphonic_aftertouch d1 d2 ch).data.headD 0)
          (okSource (MidiMessage.polyphonic_aftertouch d1 d2 ch).data.tail e)
        = (Except.ok (MidiMessage.polyphonic_aftertouch d1 d2 ch), ⟨[], e⟩)
      ∧ (MidiMessage.polyphonic_aftertouch d1 d2 ch).status = some Status.PolyphonicAftertouch
      ∧ (MidiMessage.polyphonic_aftertouch d1 d2 ch).channel = some (ch + 1)
      ∧ (MidiMessage.polyphonic_aftertouch d1 d2 ch).getData 1 = some d1
      ∧ (MidiMessage.polyphonic_aftertouch d1 d2 ch).getData 2 = some d2)
    ∧ (MidiMessage.next_message_given_status ((MidiMessage.control_change d1 d2 ch).data.headD 0)
        (okSource (MidiMessage.control_change d1 d2 ch).data.tail e)
        = (Except.ok (MidiMessage.control_change d1 d2 ch), ⟨[], e⟩)
      ∧ (MidiMessage.control_change d1 d2 ch).status = some Status.ControlChange
      ∧ (MidiMessage.control_change d1 d2 ch).channel = some (ch + 1)
      ∧ (MidiMessage.control_change d1 d2 ch).getData 1 = some d1
      ∧ (MidiMessage.control_change d1 d2 ch).getData 2 = some d2)
    ∧ (MidiMessage.next_message_given_status ((MidiMessage.program_change d1 ch).data.headD 0)
        (okSource (MidiMessage.program_change d1 ch).data.tail e)
        = (Except.ok (MidiMessage.program_change d1 ch), ⟨[], e⟩)
      ∧ (MidiMessage.program_change d1 ch).status = some Status.ProgramChange
      ∧ (MidiMessage.program_change d1 ch).channel = some (ch + 1)
      ∧ (MidiMessage.program_change d1 ch).getData 1 = some d1)
    ∧ (MidiMessage.next_message_given_status ((MidiMessage.channel_aftertouch d1 ch).data.headD 0)
        (okSource (MidiMessage.channel_aftertouch d1 ch).data.tail e)
        = (Except.ok (MidiMessage.channel_aftertouch d1 ch), ⟨[], e⟩)
      ∧ (MidiMessage.channel_aftertouch d1 ch).status = some Status.ChannelAftertouch
      ∧ (MidiMessage.channel_aftertouch d1 ch).channel = some (ch + 1)
      ∧ (MidiMessage.channel_aftertouch d1 ch).getData 1 = some d1)
    ∧ (MidiMessage.next_message_given_status ((MidiMessage.pitch_bend d1 d2 ch).data.headD 0)
        (okSource (MidiMessage.pitch_bend d1 d2 ch).data.tail e)
        = (Except.ok (MidiMessage.pitch_bend d1 d2 ch), ⟨[], e⟩)
      ∧ (MidiMessage.pitch_bend d1 d2 ch).status = some Status.PitchBend
      ∧ (MidiMessage.pitch_bend d1 d2 ch).channel = some (ch + 1)
      ∧ (MidiMessage.pitch_bend d1 d2 ch).getData 1 = some d1
      ∧ (MidiMessage.pitch_bend d1 d2 ch).getData 2 = some d2) := by
  obtain ⟨f80, f90, fA0, fB0, fC0, fD0, fE0⟩ := builder_byte_facts ch hch
  exact ⟨roundtrip_two Status.NoteOn (0x90 ||| ch) d1 d2 ch e f90.1 f90.2.1 f90.2.2,
    roundtrip_two Status.NoteOff (0x80 ||| ch) d1 d2 ch e f80.1 f80.2.1 f80.2.2,
    roundtrip_two Status.PolyphonicAftertouch (0xA0 ||| ch) d1 d2 ch e fA0.1 fA0.2.1 fA0.2.2,
    roundtrip_two Status.ControlChange (0xB0 ||| ch) d1 d2 ch e fB0.1 fB0.2.1 fB0.2.2,
    roundtrip_one Status.ProgramChange (0xC0 ||| ch) d1 ch e fC0.1 fC0.2.1 fC0.2.2,
    roundtrip_one Status.ChannelAftertouch (0xD0 ||| ch) d1 ch e fD0.1 fD0.2.1 fD0.2.2,
    roundtrip_two Status.PitchBend (0xE0 ||| ch) d1 d2 ch e fE0.1 fE0.2.1 fE0.2.2⟩

/-- Witness for C2 at channel 0, note 60, velocity 100. -/
theorem builders_roundtrip_witness :
    MidiMessage.next_message_given_status ((MidiMessage.note_on 60 100 0).data.headD 0)
        (okSource (MidiMessage.note_on 60 100 0).data.tail ⟨0⟩)
      = (Except.ok (MidiMessage.note_on 60 100 0), ⟨[], ⟨0⟩⟩) :=
  (builders_roundtrip 0 60 100 ⟨0⟩ (by decide) (by decide) (by decide)).1.1

/-- Claim C5: decoding a NoteOn status against a source with fewer than two
available bytes fails with `IoError` wrapping the source's end-of-stream
error; and whenever decoding with status `0x90` succeeds, the message has
exactly three bytes — decode is all-or-nothing. -/
theorem noteon_truncated_all_or_nothing :
    (∀ r : Reader, r.items.length < 2 → (∀ x ∈ r.items, ∃ b, x = Except.ok b) →
      (MidiMessage.next_message_given_status 0x90 r).1
        = Except.error (MidiError.IoError r.eof))
    ∧ (∀ (r r2 : Reader) (m : MidiMessage),
        MidiMessage.next_message_given_status 0x90 r = (Except.ok m, r2) →
        m.data.length = 3) := by
  have hdb : MidiMessage.data_bytes 0x90 = 2 := by decide
  constructor
  · rintro ⟨items, eof⟩ h1 h2
    cases items with
    | nil => rfl
    | cons x rest =>
      obtain ⟨b, rb⟩ := h2 x (List.mem_cons_self x rest)
      subst rb
      cases rest with
      | nil => rfl
      | cons y rest2 => simp at h1; omega
  · rintro ⟨items, eof⟩ r2 m h
    cases items with
    | nil => simp [MidiMessage.next_message_given_status, hdb, read_byte] at h
    | cons x rest =>
      cases x with
      | error e0 => simp [MidiMessage.next_message_given_status, hdb, read_byte] at h
      | ok b1 =>
        cases rest with
        | nil => simp [MidiMessage.next_message_given_status, hdb, read_byte] at h
        | cons y rest2 =>
          cases y with
          | error e0 => simp [MidiMessage.next_message_given_status, hdb, read_byte] at h
          | ok b2 =>
            simp [MidiMessage.next_message_given_status, hdb, read_byte] at h
            obtain ⟨hm, -⟩ := h
            subst hm
            rfl

/-- Witness for C5 on an empty source with end-of-stream error `7`. -/
theorem noteon_truncated_witness :
    (MidiMessage.next_message_given_status 0x90 ⟨[], ⟨7⟩⟩).1
      = Except.error (MidiError.IoError ⟨7⟩) :=
  noteon_truncated_all_or_nothing.1 ⟨[], ⟨7⟩⟩ (by decide) (by simp)

/-- Claim C6: `next_message` behaves exactly as reading one byte and
delegating to `next_message_given_status` on the advanced source, for each
possible first read outcome; a failed status read surfaces as the wrapped
I/O error. -/
theorem next_message_delegates (eof : IoError) :
    (MidiMessage.next_message ⟨[], eof⟩
        = (Except.error (MidiError.IoError eof), ⟨[], eof⟩))
    ∧ (∀ (e : IoError) (rest : List (Except IoError Nat)),
        MidiMessage.next_message ⟨Except.error e :: rest, eof⟩
          = (Except.error (MidiError.IoError e), ⟨rest, eof⟩))
    ∧ (∀ (b : Nat) (rest : List (Except IoError Nat)),
        MidiMessage.next_message ⟨Except.ok b :: rest, eof⟩
          = MidiMessage.next_message_given_status b ⟨rest, eof⟩) :=
  ⟨rfl, fun _ _ => rfl, fun _ _ => rfl⟩

/-- Claim C7: every builder's message reports channel + 1 (so channel 15
reports 16), and in general `channel()` is the low nibble of byte 0 plus
one, a value between 1 and 16. -/
theorem channel_is_nibble_plus_one (ch : Nat) (hch : ch < 16) :
    (∀ n v, (MidiMessage.note_on n v ch).channel = some (ch + 1))
    ∧ (∀ n v, (MidiMessage.note_off n v ch).channel = some (ch + 1))
    ∧ (∀ n p, (MidiMessage.polyphonic_aftertouch n p ch).channel = some (ch + 1))
    ∧ (∀ c d, (MidiMessage.control_change c d ch).channel = some (ch + 1))
    ∧ (∀ p, (MidiMessage.program_change p ch).channel = some (ch + 1))
    ∧ (∀ p, (MidiMessage.channel_aftertouch p ch).channel = some (ch + 1))
    ∧ (∀ l m, (MidiMessage.pitch_bend l m ch).channel = some (ch + 1))
    ∧ (∀ (m : MidiMessage) (b : Nat) (rest : List Nat), m.data = b :: rest →
        m.channel = some ((b &&& CHANNEL_MASK) + 1)
          ∧ 1 ≤ (b &&& CHANNEL_MASK) + 1 ∧ (b &&& CHANNEL_MASK) + 1 ≤ 16) := by
  obtain ⟨f80, f90, fA0, fB0, fC0, fD0, fE0⟩ := builder_byte_facts ch hch
  refine ⟨fun n v => ?_, fun n v => ?_, fun n p => ?_, fun c d => ?_,
    fun p => ?_, fun p => ?_, fun l m => ?_, fun m b rest hm => ?_⟩
  · simp [MidiMessage.note_on, MidiMessage.make_status, Status.toU8,
      MidiMessage.channel, f90.2.2]
  · simp [MidiMessage.note_off, MidiMessage.make_status, Status.toU8,
      MidiMessage.channel, f80.2.2]
  · simp [MidiMessage.polyphonic_aftertouch, MidiMessage.make_status, Status.toU8,
      MidiMessage.channel, fA0.2.2]
  · simp [MidiMessage.control_change, MidiMessage.make_status, Status.toU8,
      MidiMessage.channel, fB0.2.2]
  · simp [MidiMessage.program_change, MidiMessage.make_status, Status.toU8,
      MidiMessage.channel, fC0.2.2]
  · simp [MidiMessage.channel_aftertouch, MidiMessage.make_status, Status.toU8,
      MidiMessage.channel, fD0.2.2]
  · simp [MidiMessage.pitch_bend, MidiMessage.make_status, Status.toU8,
      MidiMessage.channel, fE0.2.2]
  · refine ⟨by simp [MidiMessage.channel, hm], Nat.le_add_left 1 _, ?_⟩
    have hle : b &&& CHANNEL_MASK ≤ CHANNEL_MASK := Nat.and_le_right
    have h15 : CHANNEL_MASK = 15 := rfl
    omega

/-- Witness for C7 at channel 15: the reported channel is 16. -/
theorem channel_is_nibble_plus_one_witness :
    (MidiMessage.note_on 1 2 15).channel = some 16 :=
  (channel_is_nibble_plus_one 15 (by decide)).1 1 2

/-- Claim C8: the two concrete examples — `note_on(60, 100, 0)` is
`[0x90, 60, 100]` and decodes back to NoteOn / channel 1 / data 60, 100;
`program_change(5, 9)` is `[0xC9, 5]` and decodes back to ProgramChange /
channel 10 / data 5. -/
theorem examples_note_on_program_change :
    (MidiMessage.note_on 60 100 0).data = [0x90, 60, 100]
    ∧ MidiMessage.next_message_given_status 0x90 (okSource [60, 100] ⟨0⟩)
        = (Except.ok (MidiMessage.note_on 60 100 0), ⟨[], ⟨0⟩⟩)
    ∧ (MidiMessage.note_on 60 100 0).status = some Status.NoteOn
    ∧ (MidiMessage.note_on 60 100 0).channel = some 1
    ∧ (MidiMessage.note_on 60 100 0).getData 1 = some 60
    ∧ (MidiMessage.note_on 60 100 0).getData 2 = some 100
    ∧ (MidiMessage.program_change 5 9).data = [0xC9, 5]
    ∧ MidiMessage.next_message_given_status 0xC9 (okSource [5] ⟨0⟩)
        = (Except.ok (MidiMessage.program_change 5 9), ⟨[], ⟨0⟩⟩)
    ∧ (MidiMessage.program_change 5 9).status = some Status.ProgramChange
    ∧ (MidiMessage.program_change 5 9).channel = some 10
    ∧ (MidiMessage.program_change 5 9).getData 1 = some 5 :=
  ⟨rfl, rfl, rfl, rfl, rfl, rfl, rfl, rfl, rfl, rfl, rfl⟩

/-- Claim C9: `status()` masks byte 0 with `0xF0` before the enum lookup, so
every first byte in `0xF0`–`0xFF` — including the exact discriminants of
`TimingClock`, `SystemReset`, etc. — classifies as `SysExStart`. -/
theorem status_masks_high_nibble (b : Nat) (hb1 : 0xF0 ≤ b) (hb2 : b ≤ 0xFF)
    (rest : List Nat) :
    (MidiMessage.from_bytes (b :: rest)).status = some Status.SysExStart := by
  have hsmall : ∀ k < 16, (0xF0 + k) &&& 0xF0 = 0xF0 := by decide
  have hk := hsmall (b - 0xF0) (by omega)
  have hb : b = 0xF0 + (b - 0xF0) := by omega
  rw [← hb] at hk
  have h : b &&& STATUS_MASK = 0xF0 := hk
  show Status.fromU8 (b &&& STATUS_MASK) = some Status.SysExStart
  exact (congrArg Status.fromU8 h).trans (by decide)

/-- Witness for C9 at `0xF8`, the exact discriminant of `TimingClock`. -/
theorem status_masks_high_nibble_witness :
    (MidiMessage.from_bytes [0xF8]).status = some Status.SysExStart :=
  status_masks_high_nibble 0xF8 (by decide) (by decide) []

/-- Claim C10: `from_bytes` keeps the byte vector unchanged with no
validation whatsoever; on the resulting messages, `status()` can reach its
`unwrap` failure (modelled as `none`) for an unclassifiable first byte, and
`status()`, `channel()` and `data(i)` index out of bounds (modelled as
`none`) on an empty message. -/
theorem from_bytes_unvalidated :
    (∀ bytes : List Nat, (MidiMessage.from_bytes bytes).data = bytes)
    ∧ (MidiMessage.from_bytes [0x00]).status = none
    ∧ (MidiMessage.from_bytes []).status = none
    ∧ (MidiMessage.from_bytes []).channel = none
    ∧ (MidiMessage.from_bytes []).getData 0 = none :=
  ⟨fun _ => rfl, rfl, rfl, rfl, rfl⟩

end Rimd
